import Mathlib

/-!
Verification development for the gourmet-guide backend's recommendation
pipeline (`src/application/restaurant_workflow.py`).

The Python module is shallowly embedded below: JSON values are an inductive
type, `json.loads` is a fueled recursive-descent reader, the three
`re.search` extraction patterns are modelled by equivalent first-occurrence
scans, Python exceptions are an `Except` error type, and the network /
provider / LLM outcomes that the code consumes are supplied explicitly
through an environment record.  Floating-point trigonometry
(`calculate_distance`) is abstracted as a rational-valued distance function
parameter, and `uuid.uuid4()`-generated identifiers (session id, food-item
ids) are omitted since they carry no information used by any property.
-/

namespace GourmetGuide

/-- JSON values as produced by `json.loads`.  Numbers are rationals (Python
parses them as int/float; no property here does float arithmetic). -/
inductive Json where
  | null : Json
  | bool (b : Bool) : Json
  | num (q : ℚ) : Json
  | str (s : String) : Json
  | arr (elems : List Json) : Json
  | obj (fields : List (String × Json)) : Json

/-- Python truthiness of a JSON value (`if x:`). -/
def Json.truthy : Json → Bool
  | .null => false
  | .bool b => b
  | .num q => decide (q ≠ 0)
  | .str s => decide (s ≠ "")
  | .arr l => !l.isEmpty
  | .obj l => !l.isEmpty

/-- Whether the value is a JSON object (Python `dict`). -/
def Json.isObj : Json → Bool
  | .obj _ => true
  | _ => false

/-- Key lookup in an object's field list (objects built by the reader below
hold each key at most once, mirroring a Python `dict`). -/
def objFind (kvs : List (String × Json)) (k : String) : Option Json :=
  (kvs.find? (fun kv => kv.1 == k)).map (fun kv => kv.2)

/-- Total lookup: `none` when the value is not an object or lacks the key. -/
def Json.lookup : Json → String → Option Json
  | .obj kvs, k => objFind kvs k
  | _, _ => none

/-- Insertion with Python `dict` semantics: an existing key keeps its
position and gets the new value; a new key is appended. -/
def objInsert (kvs : List (String × Json)) (k : String) (v : Json) :
    List (String × Json) :=
  if kvs.any (fun kv => kv.1 == k) then
    kvs.map (fun kv => if kv.1 == k then (k, v) else kv)
  else
    kvs ++ [(k, v)]

/-- JSON inter-token whitespace (`json.decoder` skips space, tab, LF, CR). -/
def isJsonWs (c : Char) : Bool :=
  c = ' ' || c = '\t' || c = '\n' || c = '\r'

/-- ASCII portion of the characters matched by `\s` in Python regexes. -/
def isReWs (c : Char) : Bool :=
  c = ' ' || c = '\t' || c = '\n' || c = '\r' || c = '\x0b' || c = '\x0c'

/-- Digits of a number literal to a natural value. -/
def digitsVal (ds : List Char) : Nat :=
  ds.foldl (fun acc c => acc * 10 + (c.toNat - '0'.toNat)) 0

/-- The rational value of a number literal: sign, integer digits, fraction
digits and decimal exponent (assembled with integer arithmetic). -/
def numValue (neg : Bool) (intDs fracDs : List Char) (exp : Int) : ℚ :=
  let mant : Int :=
    (if neg then -1 else 1) * (digitsVal (intDs ++ fracDs) : Int)
  let e : Int := exp - fracDs.length
  if 0 ≤ e then ((mant * 10 ^ e.toNat : Int) : ℚ)
  else mkRat mant (10 ^ (-e).toNat)

/-- Optional exponent part of a number literal, then assembly of the
rational value. -/
def readNumExp (neg : Bool) (intDs fracDs : List Char) (cs : List Char) :
    Option (ℚ × List Char) :=
  match cs with
  | e :: rest =>
    if e = 'e' || e = 'E' then
      let (esign, rest1) :=
        match rest with
        | '+' :: r => ((1 : Int), r)
        | '-' :: r => ((-1 : Int), r)
        | _ => ((1 : Int), rest)
      let (expDs, rest2) := rest1.span Char.isDigit
      if expDs = [] then none
      else some (numValue neg intDs fracDs (esign * (digitsVal expDs : Int)), rest2)
    else some (numValue neg intDs fracDs 0, cs)
  | [] => some (numValue neg intDs fracDs 0, cs)

/-- Reader for a JSON number (strict grammar of `json.decoder.NUMBER_RE`:
optional minus, `0` or a nonzero-led digit run, optional fraction, optional
exponent). Returns the value and the unconsumed suffix. -/
def readNum (cs : List Char) : Option (ℚ × List Char) :=
  let (neg, cs1) :=
    match cs with
    | '-' :: rest => (true, rest)
    | _ => (false, cs)
  let (intDs, cs2) := cs1.span Char.isDigit
  if intDs = [] then none
  else if intDs.length > 1 && intDs.headI = '0' then none
  else
    let (fracDs, cs3) :=
      match cs2 with
      | '.' :: rest => rest.span Char.isDigit
      | _ => ([], cs2)
    match cs2 with
    | '.' :: _ =>
      if fracDs = [] then none
      else readNumExp neg intDs fracDs cs3
    | _ => readNumExp neg intDs [] cs2

/-- Value of a hex digit, if it is one (code-point arithmetic). -/
def hexVal (c : Char) : Option Nat :=
  let n := c.toNat
  if 48 ≤ n && n ≤ 57 then some (n - 48)
  else if 97 ≤ n && n ≤ 102 then some (n - 87)
  else if 65 ≤ n && n ≤ 70 then some (n - 55)
  else none

/-- Decoded character of a one-letter escape sequence. -/
def escChar (esc : Char) : Option Char :=
  if esc = '"' then some '"'
  else if esc = '\\' then some '\\'
  else if esc = '/' then some '/'
  else if esc = 'b' then some '\x08'
  else if esc = 'f' then some '\x0c'
  else if esc = 'n' then some '\n'
  else if esc = 'r' then some '\r'
  else if esc = 't' then some '\t'
  else none

/-- Reader for the body of a JSON string literal (opening quote already
consumed).  Strict mode: unescaped control characters are rejected;
`\uXXXX` yields the code point (surrogate pairing not modelled). -/
def readStrAux : List Char → Option (List Char × List Char)
  | [] => none
  | '"' :: rest => some ([], rest)
  | '\\' :: 'u' :: h1 :: h2 :: h3 :: h4 :: rest =>
    match hexVal h1, hexVal h2, hexVal h3, hexVal h4 with
    | some a, some b, some c, some d =>
      match readStrAux rest with
      | some (s, r) => some (Char.ofNat (((a * 16 + b) * 16 + c) * 16 + d) :: s, r)
      | none => none
    | _, _, _, _ => none
  | '\\' :: esc :: rest =>
    match escChar esc with
    | some c =>
      match readStrAux rest with
      | some (s, r) => some (c :: s, r)
      | none => none
    | none => none
  | c :: rest =>
    if c.toNat < 0x20 then none
    else
      match readStrAux rest with
      | some (s, r) => some (c :: s, r)
      | none => none

/-- String-literal reader wrapping `readStrAux`. -/
def readStr (cs : List Char) : Option (String × List Char) :=
  match readStrAux cs with
  | some (l, r) => some (String.mk l, r)
  | none => none

mutual

/-- Fueled reader for one JSON value, leading whitespace allowed. -/
def readVal : Nat → List Char → Option (Json × List Char)
  | 0, _ => none
  | fuel + 1, cs =>
    match cs.dropWhile isJsonWs with
    | '\x7b' :: rest => readObjBody fuel rest
    | '[' :: rest => readArrBody fuel rest
    | '"' :: rest =>
      match readStr rest with
      | some (s, r) => some (.str s, r)
      | none => none
    | 't' :: 'r' :: 'u' :: 'e' :: rest => some (.bool true, rest)
    | 'f' :: 'a' :: 'l' :: 's' :: 'e' :: rest => some (.bool false, rest)
    | 'n' :: 'u' :: 'l' :: 'l' :: rest => some (.null, rest)
    | other =>
      match readNum other with
      | some (q, r) => some (.num q, r)
      | none => none

/-- After `[`: empty array or first element. -/
def readArrBody : Nat → List Char → Option (Json × List Char)
  | 0, _ => none
  | fuel + 1, cs =>
    match cs.dropWhile isJsonWs with
    | ']' :: rest => some (.arr [], rest)
    | other => readArrElems fuel other []

/-- Elements of a non-empty array, comma separated. -/
def readArrElems : Nat → List Char → List Json → Option (Json × List Char)
  | 0, _, _ => none
  | fuel + 1, cs, acc =>
    match readVal fuel cs with
    | none => none
    | some (j, r) =>
      match r.dropWhile isJsonWs with
      | ',' :: r2 => readArrElems fuel r2 (acc ++ [j])
      | ']' :: r2 => some (.arr (acc ++ [j]), r2)
      | _ => none

/-- After `{`: empty object or first member. -/
def readObjBody : Nat → List Char → Option (Json × List Char)
  | 0, _ => none
  | fuel + 1, cs =>
    match cs.dropWhile isJsonWs with
    | '\x7d' :: rest => some (.obj [], rest)
    | other => readObjMembers fuel other []

/-- Members of a non-empty object, comma separated, duplicate keys applied
with `dict` update semantics. -/
def readObjMembers : Nat → List Char → List (String × Json) →
    Option (Json × List Char)
  | 0, _, _ => none
  | fuel + 1, cs, acc =>
    match cs.dropWhile isJsonWs with
    | '"' :: rest =>
      match readStr rest with
      | none => none
      | some (k, r) =>
        match r.dropWhile isJsonWs with
        | ':' :: r2 =>
          match readVal fuel r2 with
          | none => none
          | some (v, r3) =>
            match r3.dropWhile isJsonWs with
            | ',' :: r4 => readObjMembers fuel r4 (objInsert acc k v)
            | '\x7d' :: r4 => some (.obj (objInsert acc k v), r4)
            | _ => none
        | _ => none
    | _ => none

end

/-- Model of `json.loads`: read one value, allow surrounding whitespace,
require the whole input to be consumed.  `None` models `JSONDecodeError`. -/
def jsonLoads (s : String) : Option Json :=
  match readVal (s.data.length + 2) s.data with
  | some (j, rest) => if rest.dropWhile isJsonWs = [] then some j else none
  | none => none

/-- Split the input at the first occurrence of `pat`, returning the segment
before it and the remainder after it. -/
def splitAfterFirst (pat : List Char) : List Char → Option (List Char × List Char)
  | [] => if pat = [] then some ([], []) else none
  | c :: rest =>
    if pat.isPrefixOf (c :: rest) then some ([], (c :: rest).drop pat.length)
    else
      match splitAfterFirst pat rest with
      | some (pre, post) => some (c :: pre, post)
      | none => none

/-- Drop `\s` characters from both ends. -/
def trimReWs (cs : List Char) : List Char :=
  ((cs.dropWhile isReWs).reverse.dropWhile isReWs).reverse

/-- Model of `re.search(r"```json\s*([\s\S]*?)\s*```", text)`: the captured
group is the text between the first occurrence of the opening fence tag and
the first closing fence after it, trimmed of whitespace on both ends. -/
def fencedExtract (s : String) : Option String :=
  match splitAfterFirst ("```json".data) s.data with
  | none => none
  | some (_, rest) =>
    match splitAfterFirst ("```".data) rest with
    | none => none
    | some (mid, _) => some (String.mk (trimReWs mid))

/-- Model of `re.search(r"({[\s\S]*})", text)`: the leftmost-greedy match
runs from the first `{` to the last `}` of the text, which must lie after
it. -/
def braceExtract (s : String) : Option String :=
  let cs := s.data
  match cs.findIdx? (fun c => c = '\x7b') with
  | none => none
  | some i =>
    match cs.reverse.findIdx? (fun c => c = '\x7d') with
    | none => none
    | some jr =>
      let j := cs.length - 1 - jr
      if i < j then some (String.mk ((cs.drop i).take (j - i + 1))) else none

/-- Model of `re.search(r"\\boxed{([\s\S]*)}", text)`: the captured group
runs from just after the first `\boxed` opening to the last `}` of the
text (exclusive), which must lie after the opening. -/
def boxedExtract (s : String) : Option String :=
  match splitAfterFirst ("\\boxed\x7b".data) s.data with
  | none => none
  | some (_, rest) =>
    match rest.reverse.findIdx? (fun c => c = '\x7d') with
    | none => none
    | some jr => some (String.mk (rest.take (rest.length - 1 - jr)))

/-- The default empty extraction result
`{"selected_restaurants": [], "match_score": 0.0}`. -/
def defaultExtraction : Json :=
  .obj [("selected_restaurants", .arr []), ("match_score", .num 0)]

/-- Model of `parse_llm_response_to_json`.  The Python function is total: a
parse failure at any located region is swallowed by the enclosing
`except Exception` and yields the default result. -/
def parse_llm_response_to_json (response_content : String) : Json :=
  if response_content = "" then defaultExtraction
  else
    match jsonLoads response_content with
    | some analysis => analysis
    | none =>
      match fencedExtract response_content with
      | some json_str =>
        -- a located fenced block whose content fails to parse raises inside
        -- the inner `try`, is caught by `except Exception`, and returns the
        -- default; the later rules are not tried
        (jsonLoads json_str).getD defaultExtraction
      | none =>
        match braceExtract response_content with
        | some json_str => (jsonLoads json_str).getD defaultExtraction
        | none =>
          match boxedExtract response_content with
          | some boxed_content =>
            match fencedExtract boxed_content with
            | some json_str => (jsonLoads json_str).getD defaultExtraction
            | none => defaultExtraction
          | none => defaultExtraction

/-- The call site passes `response.choices[0].message.content`, which may be
`None`; `if not response_content` treats `None` and `""` alike. -/
def parseLlmResponseOpt : Option String → Json
  | none => defaultExtraction
  | some s => parse_llm_response_to_json s

/-- Python exceptions that can escape the embedded functions. -/
inductive PyError where
  | runtimeError (msg : String) : PyError
  | unboundLocalError (name : String) : PyError
  | attributeError (msg : String) : PyError
  | typeError (msg : String) : PyError
  deriving DecidableEq

/-- `AddressResponse` as returned by `reverse_geocode_service` (pydantic
model in `domain/value_objects.py`; all parts but `formattedAddress` are
optional). -/
structure GeoAddress where
  street : Option String
  city : Option String
  state : Option String
  country : Option String
  postalCode : Option String
  formattedAddress : String

/-- One location record from the GoFood POI search response.  Fields are
typed per the provider's response grammar; `none` models a missing key. -/
structure PoiLocation where
  latitude : Option ℚ
  longitude : Option ℚ
  service_area_name : Option String
  locality_name : Option String

/-- Python `str.lower()` (ASCII portion). -/
def strLower (s : String) : String :=
  String.mk (s.data.map Char.toLower)

/-- Python `a or b` on an optional string against a string default
(`None` and `""` are falsy). -/
def pyOrStr (a : Option String) (b : String) : String :=
  match a with
  | some s => if s = "" then b else s
  | none => b

/-- The nearest-location scan of `get_nearest_service_area`: locations
missing latitude or longitude are skipped; the running minimum starts at
`inf` (modelled by `none`) and is replaced only on strictly smaller
distance.  `dist` abstracts `calculate_distance` (float haversine). -/
def selectNearest (dist : ℚ → ℚ → ℚ → ℚ → ℚ) (lat lng : ℚ)
    (locations : List PoiLocation) : Option PoiLocation :=
  (locations.foldl
    (fun best loc =>
      match loc.latitude, loc.longitude with
      | some la, some lo =>
        let d := dist lat lng la lo
        match best with
        | none => some (d, loc)
        | some (bd, bl) => if d < bd then some (d, loc) else some (bd, bl)
      | _, _ => best)
    none).map (fun p => p.2)

/-- The POI-search stage of `get_nearest_service_area`: `poi = none` models
a failed search request (`RequestException`, caught and logged), and
`none` as result means execution falls through to the geocoded-address
fallback. -/
def poiNearestPair (dist : ℚ → ℚ → ℚ → ℚ → ℚ) (lat lng : ℚ)
    (poi : Option (List PoiLocation)) : Option (String × String) :=
  match poi with
  | none => none
  | some locations =>
    if locations.isEmpty then none
    else
      match selectNearest dist lat lng locations with
      | none => none
      | some nearest =>
        let service_area := strLower (nearest.service_area_name.getD "")
        let locality0 := strLower (nearest.locality_name.getD "")
        let locality := if locality0 = "" then service_area else locality0
        some (service_area, locality)

/-- Model of `get_nearest_service_area`.  `geocode = none` models
`reverse_geocode_service` raising; the enclosing `try` then raises
`RuntimeError("Failed to determine service area and locality")`. -/
def get_nearest_service_area (dist : ℚ → ℚ → ℚ → ℚ → ℚ) (lat lng : ℚ)
    (geocode : Option GeoAddress) (poi : Option (List PoiLocation)) :
    Except PyError (String × String) :=
  match geocode with
  | none => .error (.runtimeError "Failed to determine service area and locality")
  | some address_response =>
    match poiNearestPair dist lat lng poi with
    | some pair => .ok pair
    | none =>
      let locality :=
        strLower (pyOrStr address_response.city
          (pyOrStr address_response.state "bali"))
      let service_area :=
        match address_response.state with
        | some s => if s = "" then "bali" else strLower s
        | none => "bali"
      .ok (service_area, locality)

/-- The `location` sub-dictionary of an outlet's `core`. -/
structure RawLocation where
  address : Option String
  latitude : Option ℚ
  longitude : Option ℚ

/-- The `core` sub-dictionary of a GoFood outlet; each tag contributes its
`displayName` (default `""`). -/
structure OutletCore where
  displayName : Option String
  location : Option RawLocation
  tags : List (Option String)

/-- One outlet record of the GoFood near-me response.  `core = none` models
the `"core"` key being absent, in which case the outlet is skipped. -/
structure RawOutlet where
  uid : Option String
  core : Option OutletCore
  priceLevel : Option Int
  ratingsAverage : Option ℚ
  coverImgUrl : Option String
  distanceKm : Option ℚ
  path : Option String

/-- A processed outlet dictionary as built by
`fetch_restaurants_from_gofood`; every key is present with a default. -/
structure Candidate where
  id : String
  name : String
  location : RawLocation
  cuisineTypes : List String
  priceLevel : Int
  ratings : ℚ
  coverImgUrl : String
  distance : ℚ
  path : String

/-- The outlet-processing loop: outlets without a `"core"` key are skipped,
every other field defaults when missing. -/
def processOutlets (outlets : List RawOutlet) : List Candidate :=
  outlets.filterMap (fun outlet =>
    match outlet.core with
    | none => none
    | some core =>
      some { id := outlet.uid.getD ""
             name := core.displayName.getD ""
             location := core.location.getD ⟨none, none, none⟩
             cuisineTypes := core.tags.map (fun t => t.getD "")
             priceLevel := outlet.priceLevel.getD 0
             ratings := outlet.ratingsAverage.getD 0
             coverImgUrl := outlet.coverImgUrl.getD ""
             distance := outlet.distanceKm.getD 0
             path := outlet.path.getD "" })

/-- Model of `fetch_restaurants_from_gofood`.  A `RuntimeError` from
`get_nearest_service_area` is caught and yields `[]`; a non-200 status
yields `[]`; a body that fails to decode (`gofoodBody = none`) raises and
is caught by the generic handler, yielding `[]`. -/
def fetch_restaurants_from_gofood (dist : ℚ → ℚ → ℚ → ℚ → ℚ) (lat lng : ℚ)
    (geocode : Option GeoAddress) (poi : Option (List PoiLocation))
    (status : Nat) (body : Option (List RawOutlet)) : List Candidate :=
  match get_nearest_service_area dist lat lng geocode poi with
  | .error _ => []
  | .ok _ =>
    if status = 200 then
      match body with
      | some outlets => processOutlets outlets
      | none => []
    else []

/-- Outcomes of the external collaborators consumed by one recommendation
request.  The service calls `get_nearest_service_area` twice with the same
coordinates; the environment is fixed for the request, so both calls see
the same outcome. -/
structure Env where
  dist : ℚ → ℚ → ℚ → ℚ → ℚ
  latitude : ℚ
  longitude : ℚ
  geocode : Option GeoAddress
  poi : Option (List PoiLocation)
  gofoodStatus : Nat
  gofoodBody : Option (List RawOutlet)
  /-- `response.model_extra.get("error")`; `none` models an absent key. -/
  llmError : Option Json
  /-- `message.content` of each choice (the content itself may be `None`). -/
  llmChoices : List (Option String)

/-- Truthiness of `model_extra.get("error")`. -/
def llmErrorTruthy (e : Option Json) : Bool :=
  match e with
  | none => false
  | some j => j.truthy

/-- The dictionary returned by `run_restaurant_recommendation_workflow`
(fields not read by the service are omitted). -/
structure WorkflowResult where
  restaurants_data : List Candidate
  analysis_response : Option String

/-- Model of `run_restaurant_recommendation_workflow`.  The `limit`
argument reaches only the text of the LLM prompt; it does not constrain
anything computed here.  A truthy error indicator on the LLM response
raises `RuntimeError` before any result is assembled. -/
def run_restaurant_recommendation_workflow (env : Env) (_limit : Int) :
    Except PyError WorkflowResult :=
  let restaurants_data :=
    fetch_restaurants_from_gofood env.dist env.latitude env.longitude
      env.geocode env.poi env.gofoodStatus env.gofoodBody
  if llmErrorTruthy env.llmError then
    .error (.runtimeError
      "There was an error while the AI analyze your request. Please try again later.")
  else
    .ok { restaurants_data := restaurants_data
          analysis_response :=
            match env.llmChoices with
            | [] => none
            | c :: _ => c }

/-- Python `value.get(key)`: `AttributeError` when the value is not a
dictionary. -/
def Json.dictGet : Json → String → Except PyError (Option Json)
  | .obj kvs, k => .ok (objFind kvs k)
  | _, _ => .error (.attributeError "object has no attribute get")

/-- Python `value.get(key, default)`. -/
def Json.dictGetD (j : Json) (k : String) (d : Json) : Except PyError Json :=
  (j.dictGet k).map (fun o => o.getD d)

/-- Python `for x in value`: lists iterate elements, dictionaries iterate
keys, strings iterate one-character strings, anything else raises
`TypeError`. -/
def pyIter : Json → Except PyError (List Json)
  | .arr xs => .ok xs
  | .obj kvs => .ok (kvs.map (fun kv => .str kv.1))
  | .str s => .ok (s.data.map (fun c => .str (String.mk [c])))
  | _ => .error (.typeError "object is not iterable")

/-- A `FoodItem` built in the assembly loop.  The `id` (an `item_`-prefixed
`uuid4`) is nondeterministic and carries no information, so it is omitted;
`tags` is always `[]`.  Field values are the raw JSON the LLM supplied
(pydantic coercion is not modelled). -/
structure FoodItemM where
  name : Json
  price : Json
  description : Json

/-- The `popular_items` loop of the assembly stage. -/
def buildPopularItems (selected : Json) : Except PyError (List FoodItemM) := do
  let itemsJ ← selected.dictGetD "popular_items" (.arr [])
  let items ← pyIter itemsJ
  items.mapM (fun item => do
    let name ← item.dictGetD "name" (.str "")
    let price ← item.dictGetD "price" (.num 0)
    let description ← item.dictGetD "description" (.str "")
    pure { name := name, price := price, description := description })

/-- `price_ranges.get(priceLevel, "$$")` with the fixed table
`{1: "$", 2: "$$", 3: "$$$", 4: "$$$$"}` (the processed dictionary always
carries a `priceLevel` key, so the `.get("priceLevel", 2)` default is
unreachable). -/
def priceRangeOf (priceLevel : Int) : String :=
  if priceLevel = 1 then "$"
  else if priceLevel = 2 then "$$"
  else if priceLevel = 3 then "$$$"
  else if priceLevel = 4 then "$$$$"
  else "$$"

/-- A `Restaurant` value object as built by the assembly loop (`hours` is
always `{}` and `openNow` always `True`; both omitted). -/
structure RestaurantM where
  id : String
  name : String
  rating : ℚ
  priceRange : String
  cuisineTypes : List String
  address : String
  latitude : ℚ
  longitude : ℚ
  distance : ℚ
  gojekUrl : String
  aiDescription : Json
  popularItems : List FoodItemM

/-- The membership-and-`next` pair of the assembly loop:
`restaurant_id in [r.get("id") for r in data]` followed by
`next(r for r in data if r.get("id") == restaurant_id)`.  Candidate ids
are Python strings, so a selection id matches only when it is the equal
JSON string; `next` takes the first match. -/
def selMatch (restaurant_id : Option Json) (cands : List Candidate) :
    Option Candidate :=
  match restaurant_id with
  | some (.str s) => cands.find? (fun c => c.id == s)
  | _ => none

/-- One `Restaurant(...)` construction of the assembly loop. -/
def buildRestaurant (service_area : String) (userLat userLng : ℚ)
    (data : Candidate) (selected : Json) : Except PyError RestaurantM := do
  let popular_items ← buildPopularItems selected
  let aiDescription ← selected.dictGetD "explanation" (.str "")
  pure { id := data.id
         name := data.name
         rating := data.ratings
         priceRange := priceRangeOf data.priceLevel
         cuisineTypes := data.cuisineTypes
         address := data.location.address.getD ""
         latitude := data.location.latitude.getD userLat
         longitude := data.location.longitude.getD userLng
         distance := data.distance
         gojekUrl :=
           "https://gofood.co.id/en/" ++ service_area ++ "/restaurant/" ++ data.id
         aiDescription := aiDescription
         popularItems := popular_items }

/-- The selection loop of `get_restaurant_recommendations_service`
(lines 500-555): selections whose id matches no candidate are skipped;
matching selections append a built `Restaurant` in order. -/
def assembleSelections (service_area : String) (userLat userLng : ℚ)
    (cands : List Candidate) : List Json → Except PyError (List RestaurantM)
  | [] => .ok []
  | selected :: rest => do
    let restaurant_id ← selected.dictGet "id"
    match selMatch restaurant_id cands with
    | some data => do
      let r ← buildRestaurant service_area userLat userLng data selected
      let rs ← assembleSelections service_area userLat userLng cands rest
      pure (r :: rs)
    | none => assembleSelections service_area userLat userLng cands rest

/-- The value of `RecommendationsResponse` (the `sessionId`, a fresh
`uuid4`, is omitted).  `matchScore` keeps the raw JSON value. -/
structure RecommendationsResponseM where
  restaurants : List RestaurantM
  matchScore : Json

/-- Python `limit or 5` / `radius or 5.0` (`None` and `0` are falsy). -/
def pyOrInt (a : Option Int) (b : Int) : Int :=
  match a with
  | some v => if v = 0 then b else v
  | none => b

/-- Model of `get_restaurant_recommendations_service`.  The `radius`
argument is defaulted (`radius or 5.0`) and then unused.  When
`restaurants_data` is empty the `if result.get("restaurants_data"):`
block is skipped, so the subsequent
`match_score = analysis.get("match_score", 0.7)` reads the local
`analysis` before assignment and raises `UnboundLocalError`. -/
def get_restaurant_recommendations_service (env : Env)
    (_radius : Option ℚ) (limit : Option Int) :
    Except PyError RecommendationsResponseM := do
  let limit' := pyOrInt limit 5
  let result ← run_restaurant_recommendation_workflow env limit'
  let sa ← get_nearest_service_area env.dist env.latitude env.longitude
    env.geocode env.poi
  let service_area := sa.1
  if result.restaurants_data.isEmpty then
    .error (.unboundLocalError "analysis")
  else do
    let analysis := parseLlmResponseOpt result.analysis_response
    let selsJ ← analysis.dictGetD "selected_restaurants" (.arr [])
    let sels ← pyIter selsJ
    let restaurants ← assembleSelections service_area env.latitude
      env.longitude result.restaurants_data sels
    let matchScore ← analysis.dictGetD "match_score" (.num (7 / 10))
    pure { restaurants := restaurants, matchScore := matchScore }

/-- Whether a selection's id equals a given candidate's id under Python
`==` (candidate ids are strings, so only an equal JSON string matches). -/
def selIdMatches (s : Json) (c : Candidate) : Bool :=
  match s.lookup "id" with
  | some (.str t) => t == c.id
  | _ => false

/-! Concrete sample data used to exercise the model at specific inputs. -/

/-- A distance function standing in for `calculate_distance` where the
value is irrelevant. -/
def zeroDist : ℚ → ℚ → ℚ → ℚ → ℚ := fun _ _ _ _ => 0

/-- A reverse-geocoded address for a point in Bali. -/
def sampleAddress : GeoAddress :=
  ⟨none, some "Denpasar", some "Bali", some "Indonesia", none, "Denpasar, Bali"⟩

/-- A named POI search result. -/
def samplePoi : PoiLocation := ⟨some 0, some 0, some "Bali", some "Denpasar"⟩

/-- A POI search result with coordinates but no area/locality names. -/
def poiNoNames : PoiLocation := ⟨some 0, some 0, none, none⟩

/-- A GoFood outlet with id `a`. -/
def outletA : RawOutlet :=
  ⟨some "a",
   some ⟨some "Resto A", some ⟨some "Jl. A", some 1, some 2⟩, [some "Italian"]⟩,
   some 2, some (9 / 2), some "", some 1, some "pa"⟩

/-- A GoFood outlet with id `b`. -/
def outletB : RawOutlet :=
  ⟨some "b", some ⟨some "Resto B", none, []⟩, some 7, none, none, none, none⟩

/-- An LLM reply selecting both available candidates. -/
def llmTwoSelections : String :=
  "\x7b\"selected_restaurants\": [\x7b\"id\": \"a\"\x7d, \x7b\"id\": \"b\"\x7d], \"match_score\": 0.9\x7d"

/-- An environment where every collaborator succeeds and the LLM selects
two candidates. -/
def envTwoMatches : Env :=
  ⟨zeroDist, 0, 0, some sampleAddress, some [samplePoi], 200,
   some [outletA, outletB], none, [some llmTwoSelections]⟩

/-- Same environment but the venue provider answers HTTP 500, so the fetch
yields zero candidates. -/
def envEmptyVenues : Env := { envTwoMatches with gofoodStatus := 500 }

/-- Same environment but reverse geocoding fails. -/
def envGeoFail : Env := { envTwoMatches with geocode := none }

/-- Same environment but the LLM response carries an error payload. -/
def envLLMErr : Env := { envTwoMatches with llmError := some (.str "boom") }

/-- Text with a fenced block whose content is not valid JSON, followed by a
well-formed brace-delimited JSON object. -/
def textFencedBad : String :=
  "```json\nnot json\n```\nsee \x7b\"a\": 1\x7d"

/-- Text that is not JSON overall, where brace-scanning captures an invalid
region but a fenced block holds valid JSON. -/
def textFencedGood : String :=
  "intro \x7b junk\n```json\n\x7b\"a\": 1\x7d\n```"

/-- Prose with no JSON, braces, fences or boxed wrapper anywhere. -/
def textGarbage : String := "I am sorry, I cannot help with that."

/-- Prose whose only brace region does not parse. -/
def textGarbageBraces : String := "well \x7bno, thanks\x7d to that"

/-- A candidate as processed from `outletA`. -/
def candA : Candidate :=
  ⟨"a", "Resto A", ⟨some "Jl. A", some 1, some 2⟩, ["Italian"], 2, 9 / 2, "", 1, "pa"⟩

/-- A selection whose id matches no candidate. -/
def selNoMatch : Json := .obj [("id", .str "zzz")]

/-! Helper lemmas. -/

/-- Reduction of `Except` bind at a success value. -/
theorem exceptBind_ok {ε α β : Type} (a : α) (f : α → Except ε β) :
    (Except.ok a >>= f) = f a := rfl

/-- Reduction of `Except` bind at an error. -/
theorem exceptBind_err {ε α β : Type} (e : ε) (f : α → Except ε β) :
    ((Except.error e : Except ε α) >>= f) = Except.error e := rfl

/-- A non-empty string has a non-empty character list. -/
theorem data_ne_nil_of_ne_empty (s : String) (h : s ≠ "") : s.data ≠ [] := by
  intro hc
  apply h
  cases s with
  | mk data => cases hc; rfl

/-- Lowercasing preserves non-emptiness. -/
theorem strLower_ne_empty (s : String) (h : s ≠ "") : strLower s ≠ "" := by
  intro hc
  have h2 : s.data.map Char.toLower = ([] : List Char) :=
    congrArg String.data hc
  exact data_ne_nil_of_ne_empty s h (List.map_eq_nil_iff.mp h2)

/-- `a or b` on strings is non-empty whenever the default is. -/
theorem pyOrStr_ne_empty (a : Option String) (b : String) (hb : b ≠ "") :
    pyOrStr a b ≠ "" := by
  cases a with
  | none => simp only [pyOrStr]; exact hb
  | some s =>
    by_cases hs : s = ""
    · simp only [pyOrStr, hs, if_true]; exact hb
    · simp only [pyOrStr, if_neg hs]; exact hs

/-- A candidate produced by `selMatch` comes from the candidate list. -/
theorem selMatch_mem (rid : Option Json) (cands : List Candidate)
    (data : Candidate) (h : selMatch rid cands = some data) : data ∈ cands := by
  cases rid with
  | none => simp [selMatch] at h
  | some j =>
    cases j with
    | str t => exact List.mem_of_find?_eq_some h
    | null => simp [selMatch] at h
    | bool b => simp [selMatch] at h
    | num q => simp [selMatch] at h
    | arr l => simp [selMatch] at h
    | obj kvs => simp [selMatch] at h

/-- A restaurant built by the assembly loop carries its candidate's id. -/
theorem buildRestaurant_id (sa : String) (la lo : ℚ) (data : Candidate)
    (sel : Json) (r : RestaurantM)
    (h : buildRestaurant sa la lo data sel = .ok r) : r.id = data.id := by
  unfold buildRestaurant at h
  cases hb : buildPopularItems sel with
  | error e => rw [hb, exceptBind_err] at h; cases h
  | ok items =>
    rw [hb, exceptBind_ok] at h
    cases hd : sel.dictGetD "explanation" (.str "") with
    | error e => rw [hd, exceptBind_err] at h; cases h
    | ok d =>
      rw [hd, exceptBind_ok] at h
      cases h
      rfl

/-- Every restaurant in a successful assembly corresponds by id to a
candidate from the fetched list. -/
theorem assemble_ok_mem (sa : String) (la lo : ℚ) (cands : List Candidate) :
    ∀ (sels : List Json) (rs : List RestaurantM),
      assembleSelections sa la lo cands sels = .ok rs →
      ∀ r ∈ rs, ∃ c ∈ cands, r.id = c.id := by
  intro sels
  induction sels with
  | nil =>
    intro rs h r hr
    simp only [assembleSelections] at h
    cases h
    cases hr
  | cons s rest ih =>
    intro rs h r hr
    simp only [assembleSelections] at h
    cases hg : s.dictGet "id" with
    | error e => rw [hg, exceptBind_err] at h; cases h
    | ok rid =>
      rw [hg, exceptBind_ok] at h
      cases hm : selMatch rid cands with
      | none =>
        rw [hm] at h
        exact ih rs h r hr
      | some data =>
        rw [hm] at h
        dsimp only at h
        cases hb : buildRestaurant sa la lo data s with
        | error e => rw [hb, exceptBind_err] at h; cases h
        | ok r' =>
          rw [hb, exceptBind_ok] at h
          cases ha : assembleSelections sa la lo cands rest with
          | error e => rw [ha, exceptBind_err] at h; cases h
          | ok rs' =>
            rw [ha, exceptBind_ok] at h
            cases h
            rcases List.mem_cons.mp hr with hr' | hr'
            · subst hr'
              exact ⟨data, selMatch_mem rid cands data hm,
                buildRestaurant_id sa la lo data s r hb⟩
            · exact ih rs' ha r hr'

/-- When no selection's id matches any candidate, assembly of well-formed
(object) selections yields the empty list. -/
theorem assemble_nomatch_nil (sa : String) (la lo : ℚ)
    (cands : List Candidate) :
    ∀ sels : List Json, (∀ s ∈ sels, s.isObj = true) →
      (∀ s ∈ sels, ∀ c ∈ cands, selIdMatches s c = false) →
      assembleSelections sa la lo cands sels = .ok [] := by
  intro sels
  induction sels with
  | nil => intro _ _; rfl
  | cons s rest ih =>
    intro hobj hnm
    have hs : s.isObj = true := hobj s (List.mem_cons_self s rest)
    obtain ⟨kvs, rfl⟩ : ∃ kvs, s = .obj kvs := by
      cases s with
      | obj kvs => exact ⟨kvs, rfl⟩
      | null => cases hs
      | bool b => cases hs
      | num q => cases hs
      | str t => cases hs
      | arr l => cases hs
    have hrest := ih (fun x hx => hobj x (List.mem_cons_of_mem _ hx))
      (fun x hx => hnm x (List.mem_cons_of_mem _ hx))
    simp only [assembleSelections, Json.dictGet, exceptBind_ok]
    have hmatch : selMatch (objFind kvs "id") cands = none := by
      cases hf : objFind kvs "id" with
      | none => rfl
      | some j =>
        cases j with
        | str t =>
          simp only [selMatch]
          apply List.find?_eq_none.mpr
          intro c hc
          have := hnm (.obj kvs) (List.mem_cons_self _ _) c hc
          simp only [selIdMatches, Json.lookup, hf] at this
          simp only [beq_eq_false_iff_ne] at this
          simp only [beq_iff_eq]
          exact fun hh => this hh.symm
        | null => rfl
        | bool b => rfl
        | num q => rfl
        | arr l => rfl
        | obj kvs2 => rfl
    rw [hmatch]
    exact hrest

/-! Claims. -/

/-- C1: the claim says a recommendation request whose venue fetch yields
zero candidates completes with `restaurants == []`.  In the code, when
`restaurants_data` is empty the `if result.get("restaurants_data"):` block
is skipped, so `match_score = analysis.get("match_score", 0.7)` reads the
local `analysis` before any assignment: the request raises
`UnboundLocalError` instead of returning an empty response.  This theorem
evaluates the service at such a failing input (provider answers HTTP 500,
everything else healthy). -/
theorem c1_empty_fetch_raises_unbound_local :
    fetch_restaurants_from_gofood zeroDist 0 0 (some sampleAddress)
      (some [samplePoi]) 500 (some [outletA, outletB]) = [] ∧
    get_restaurant_recommendations_service envEmptyVenues none (some 5) =
      .error (.unboundLocalError "analysis") := ⟨rfl, rfl⟩

/-- C2: when reverse geocoding itself fails (so locality resolution fails
even after its fallback) and the LLM call itself reports no error, the
request fails with the `RuntimeError` raised by
`get_nearest_service_area`; it is not absorbed into a default region or an
empty-candidate success (the fetch stage swallows the first failure, but
the service's own `get_nearest_service_area` call re-raises it). -/
theorem c2_geocode_failure_is_fatal (env : Env) (radius : Option ℚ)
    (limit : Option Int) (hg : env.geocode = none)
    (he : llmErrorTruthy env.llmError = false) :
    get_restaurant_recommendations_service env radius limit =
      .error (.runtimeError "Failed to determine service area and locality") := by
  have hw : run_restaurant_recommendation_workflow env (pyOrInt limit 5) =
      .ok { restaurants_data := []
            analysis_response :=
              match env.llmChoices with
              | [] => none
              | c :: _ => c } := by
    simp [run_restaurant_recommendation_workflow, fetch_restaurants_from_gofood,
      get_nearest_service_area, hg, he]
  have hn : get_nearest_service_area env.dist env.latitude env.longitude
      env.geocode env.poi =
      .error (.runtimeError "Failed to determine service area and locality") := by
    rw [hg]
    rfl
  simp [get_restaurant_recommendations_service, hw, hn, exceptBind_ok,
    exceptBind_err]

/-- C2 witness: the concrete environment `envGeoFail` satisfies the
hypotheses, and the request indeed surfaces the service-area error. -/
theorem c2_witness :
    envGeoFail.geocode = none ∧
    llmErrorTruthy envGeoFail.llmError = false ∧
    get_restaurant_recommendations_service envGeoFail none none =
      .error (.runtimeError "Failed to determine service area and locality") :=
  ⟨rfl, rfl, c2_geocode_failure_is_fatal envGeoFail none none rfl rfl⟩

/-- C3: the claim says the assembled list never exceeds `limit`.  The code
passes `limit` only into the LLM prompt text and never truncates the
assembled list, contradicting its own docstring ("Maximum number of
recommendations to return").  At this input two selections match two
candidates while `limit = 1`, and both are returned (in model order). -/
theorem c3_limit_not_enforced :
    (get_restaurant_recommendations_service envTwoMatches none (some 1)).map
        (fun resp => resp.restaurants.map (fun r => r.id)) =
      .ok ["a", "b"] ∧
    pyOrInt (some 1) 5 = 1 := ⟨rfl, rfl⟩

/-- C4 counterexample: at `textFencedBad` the fenced block is located but
its content `not json` fails to parse; the extractor returns the default
empty result even though the brace rule's region parses to
`{"a": 1}` — later rules are not attempted after a located-but-invalid
earlier region, refuting the claim. -/
theorem c4_counterexample :
    parse_llm_response_to_json textFencedBad = defaultExtraction ∧
    fencedExtract textFencedBad = some "not json" ∧
    jsonLoads "not json" = none ∧
    braceExtract textFencedBad = some "\x7b\"a\": 1\x7d" ∧
    jsonLoads "\x7b\"a\": 1\x7d" = some (.obj [("a", .num 1)]) ∧
    Json.lookup defaultExtraction "a" = none ∧
    Json.lookup (.obj [("a", .num 1)]) "a" = some (.num 1) :=
  ⟨rfl, rfl, rfl, rfl, rfl, rfl, rfl⟩

/-- C4 amended: when an earlier rule locates its region but that region's
content fails to parse, the raised `JSONDecodeError` is caught by the
enclosing `except Exception` and the extractor returns the default empty
result immediately; the later rules are not attempted. -/
theorem c4_fenced_parse_failure_returns_default (s json_str : String)
    (hne : s ≠ "") (h1 : jsonLoads s = none)
    (h2 : fencedExtract s = some json_str) (h3 : jsonLoads json_str = none) :
    parse_llm_response_to_json s = defaultExtraction := by
  simp [parse_llm_response_to_json, hne, h1, h2, h3]

/-- C4 amended witness at `textFencedBad`. -/
theorem c4_amended_witness :
    textFencedBad ≠ "" ∧
    jsonLoads textFencedBad = none ∧
    fencedExtract textFencedBad = some "not json" ∧
    jsonLoads "not json" = none ∧
    parse_llm_response_to_json textFencedBad = defaultExtraction :=
  ⟨by decide, rfl, rfl, rfl,
   c4_fenced_parse_failure_returns_default textFencedBad "not json"
     (by decide) rfl rfl rfl⟩

/-- C5: if the whole text does not parse but the fenced-block rule locates
content that parses, the extractor returns that parse — rule 2 runs before
the brace scan ever gets a chance. -/
theorem c5_fenced_block_wins (s json_str : String) (j : Json) (hne : s ≠ "")
    (h1 : jsonLoads s = none) (h2 : fencedExtract s = some json_str)
    (h3 : jsonLoads json_str = some j) :
    parse_llm_response_to_json s = j := by
  simp [parse_llm_response_to_json, hne, h1, h2, h3]

/-- C5 witness at `textFencedGood`, where the brace scan would capture a
different region (from the prose `{` to the last `}`) that does not parse,
yet the fenced content is returned. -/
theorem c5_witness :
    textFencedGood ≠ "" ∧
    jsonLoads textFencedGood = none ∧
    fencedExtract textFencedGood = some "\x7b\"a\": 1\x7d" ∧
    jsonLoads "\x7b\"a\": 1\x7d" = some (.obj [("a", .num 1)]) ∧
    braceExtract textFencedGood = some "\x7b junk\n```json\n\x7b\"a\": 1\x7d" ∧
    jsonLoads "\x7b junk\n```json\n\x7b\"a\": 1\x7d" = none ∧
    parse_llm_response_to_json textFencedGood = .obj [("a", .num 1)] :=
  ⟨by decide, rfl, rfl, rfl, rfl, rfl,
   c5_fenced_block_wins textFencedGood "\x7b\"a\": 1\x7d" (.obj [("a", .num 1)])
     (by decide) rfl rfl rfl⟩

/-- C6: a truthy `model_extra["error"]` on the LLM response makes the
workflow raise `RuntimeError`, failing the whole request; no environment
with a present (truthy) error indicator ever yields a successful (empty or
not) recommendation response. -/
theorem c6_llm_error_is_fatal (env : Env) (radius : Option ℚ)
    (limit : Option Int) (he : llmErrorTruthy env.llmError = true) :
    get_restaurant_recommendations_service env radius limit =
      .error (.runtimeError
        "There was an error while the AI analyze your request. Please try again later.") := by
  have hw : run_restaurant_recommendation_workflow env (pyOrInt limit 5) =
      .error (.runtimeError
        "There was an error while the AI analyze your request. Please try again later.") := by
    simp [run_restaurant_recommendation_workflow, he]
  simp [get_restaurant_recommendations_service, hw, exceptBind_err]

/-- C6 witness: the concrete environment `envLLMErr` carries
`error: "boom"` and the request fails with the LLM `RuntimeError`. -/
theorem c6_witness :
    llmErrorTruthy envLLMErr.llmError = true ∧
    get_restaurant_recommendations_service envLLMErr none none =
      .error (.runtimeError
        "There was an error while the AI analyze your request. Please try again later.") :=
  ⟨rfl, c6_llm_error_is_fatal envLLMErr none none rfl⟩

/-- C7: on empty input, or on input in which no rule of the ladder locates
parseable structured data (no full parse, no fenced block, no brace region,
no boxed wrapper), the extractor returns exactly
`{"selected_restaurants": [], "match_score": 0.0}`.  The embedded function
is total, mirroring that the Python function catches every exception it
can raise internally. -/
theorem c7_garbage_returns_default (s : String)
    (h : s = "" ∨ (jsonLoads s = none ∧
      (∀ c, fencedExtract s = some c → jsonLoads c = none) ∧
      (∀ c, braceExtract s = some c → jsonLoads c = none) ∧
      (∀ b c, boxedExtract s = some b → fencedExtract b = some c →
        jsonLoads c = none))) :
    parse_llm_response_to_json s =
      .obj [("selected_restaurants", .arr []), ("match_score", .num 0)] := by
  rcases h with h | ⟨h1, h2, h3, h4⟩
  · subst h; rfl
  · by_cases he : s = ""
    · subst he; rfl
    · cases hf : fencedExtract s with
      | some c =>
        simp [parse_llm_response_to_json, he, h1, hf, h2 c hf, defaultExtraction]
      | none =>
        cases hb : braceExtract s with
        | some c =>
          simp [parse_llm_response_to_json, he, h1, hf, hb, h3 c hb,
            defaultExtraction]
        | none =>
          cases hx : boxedExtract s with
          | some b =>
            cases hfb : fencedExtract b with
            | some c =>
              simp [parse_llm_response_to_json, he, h1, hf, hb, hx, hfb,
                h4 b c hx hfb, defaultExtraction]
            | none =>
              simp [parse_llm_response_to_json, he, h1, hf, hb, hx, hfb,
                defaultExtraction]
          | none =>
            simp [parse_llm_response_to_json, he, h1, hf, hb, hx,
              defaultExtraction]

/-- C7 witness: empty input, plain refusal prose, and prose with a brace
region that does not parse all return the exact default. -/
theorem c7_witness :
    parse_llm_response_to_json "" =
      .obj [("selected_restaurants", .arr []), ("match_score", .num 0)] ∧
    parse_llm_response_to_json textGarbage =
      .obj [("selected_restaurants", .arr []), ("match_score", .num 0)] ∧
    parse_llm_response_to_json textGarbageBraces =
      .obj [("selected_restaurants", .arr []), ("match_score", .num 0)] := by
  refine ⟨c7_garbage_returns_default "" (Or.inl rfl),
    c7_garbage_returns_default textGarbage (Or.inr ⟨rfl, ?_, ?_, ?_⟩),
    c7_garbage_returns_default textGarbageBraces (Or.inr ⟨rfl, ?_, ?_, ?_⟩)⟩
  · intro c hc
    rw [show fencedExtract textGarbage = none from rfl] at hc
    cases hc
  · intro c hc
    rw [show braceExtract textGarbage = none from rfl] at hc
    cases hc
  · intro b c hb
    rw [show boxedExtract textGarbage = none from rfl] at hb
    cases hb
  · intro c hc
    rw [show fencedExtract textGarbageBraces = none from rfl] at hc
    cases hc
  · intro c hc
    rw [show braceExtract textGarbageBraces = some "\x7bno, thanks\x7d" from rfl] at hc
    cases hc
    rfl
  · intro b c hb
    rw [show boxedExtract textGarbageBraces = none from rfl] at hb
    cases hb

/-- C8: every restaurant in a successful assembly corresponds by id to a
fetched candidate, and if no (well-formed) selection's id matches any
candidate the assembled list is empty — unmatched selections are dropped
without fabricating recommendations. -/
theorem c8_assembler_joins_by_id (sa : String) (la lo : ℚ)
    (cands : List Candidate) (sels : List Json) :
    (∀ rs, assembleSelections sa la lo cands sels = .ok rs →
      ∀ r ∈ rs, ∃ c ∈ cands, r.id = c.id) ∧
    ((∀ s ∈ sels, s.isObj = true) →
     (∀ s ∈ sels, ∀ c ∈ cands, selIdMatches s c = false) →
     assembleSelections sa la lo cands sels = .ok []) :=
  ⟨fun rs h => assemble_ok_mem sa la lo cands sels rs h,
   fun hobj hnm => assemble_nomatch_nil sa la lo cands sels hobj hnm⟩

/-- C8 witness: with one candidate (`id = "a"`) and one selection naming
the absent id `zzz`, assembly yields the empty list. -/
theorem c8_witness :
    assembleSelections "bali" 0 0 [candA] [selNoMatch] = .ok [] :=
  (c8_assembler_joins_by_id "bali" 0 0 [candA] [selNoMatch]).2
    (by decide) (by decide)

/-- C9 counterexample: a POI search result bearing coordinates but no
`service_area_name` / `locality_name` makes `get_nearest_service_area`
return `("", "")` without raising, refuting the claim that a returned pair
never has an empty component. -/
theorem c9_counterexample :
    get_nearest_service_area zeroDist 0 0 (some sampleAddress)
      (some [poiNoNames]) = .ok ("", "") ∧
    ¬ (∀ p : String × String,
        get_nearest_service_area zeroDist 0 0 (some sampleAddress)
          (some [poiNoNames]) = .ok p → p.1 ≠ "" ∧ p.2 ≠ "") :=
  ⟨rfl, fun h => (h ("", "") rfl).1 rfl⟩

/-- C9 amended: `get_nearest_service_area` either raises or returns a pair;
a pair produced by the geocoded-address fallback (taken whenever the POI
stage yields no candidate pair) has both components non-empty, but a pair
produced from a POI candidate carries that candidate's lowercased name
fields, which may be empty. -/
theorem c9_fallback_pair_nonempty (dist : ℚ → ℚ → ℚ → ℚ → ℚ) (lat lng : ℚ)
    (addr : GeoAddress) (poi : Option (List PoiLocation))
    (hp : poiNearestPair dist lat lng poi = none) :
    ∃ a l, get_nearest_service_area dist lat lng (some addr) poi = .ok (a, l) ∧
      a ≠ "" ∧ l ≠ "" := by
  unfold get_nearest_service_area
  rw [hp]
  refine ⟨_, _, rfl, ?_, ?_⟩
  · cases hs : addr.state with
    | none => decide
    | some s =>
      by_cases he : s = ""
      · simp only [he, if_pos rfl]
        decide
      · simp only [if_neg he]
        exact strLower_ne_empty s he
  · exact strLower_ne_empty _
      (pyOrStr_ne_empty _ _ (pyOrStr_ne_empty _ _ (by decide)))

/-- C9 amended witness: with a failing POI search the fallback answers
`("bali", "denpasar")`, both non-empty. -/
theorem c9_witness :
    poiNearestPair zeroDist 0 0 none = none ∧
    (∃ a l, get_nearest_service_area zeroDist 0 0 (some sampleAddress) none =
      .ok (a, l) ∧ a ≠ "" ∧ l ≠ "") :=
  ⟨rfl, c9_fallback_pair_nonempty zeroDist 0 0 sampleAddress none rfl⟩

/-- C10: the extractor returns the first successful parse without shape
validation: `"[1, 2]"` parses as a JSON array and is returned as-is, a
non-object on which the downstream `analysis.get(...)` would raise
`AttributeError`. -/
theorem c10_array_returned_unvalidated :
    parse_llm_response_to_json "[1, 2]" = .arr [.num 1, .num 2] ∧
    (parse_llm_response_to_json "[1, 2]").isObj = false ∧
    (parse_llm_response_to_json "[1, 2]").dictGet "selected_restaurants" =
      .error (.attributeError "object has no attribute get") :=
  ⟨rfl, rfl, rfl⟩

end GourmetGuide
